import Mathlib

/-!
Verification of the SQL query generator (`src/querygen.py`).

The repository holds one class, `SQLQueryGenerator`, with
  * a constructor loading a JSON schema document,
  * `generate_query` — deterministic structured SELECT construction with
    table/column validation, and
  * `generate_query_from_natural_language` — an LLM-backed path that checks
    five environment variables, builds a prompt, performs one chat-completion
    call, and converts any exception from that call into a returned string.

The embedding below mirrors the source. Python dicts preserve insertion
order, so the schema's table map, a table's field map, and the `conditions`
mapping are modelled as association lists in insertion order; only key
presence of field metadata is ever used by the code, so a table descriptor
keeps just its field-name list. Python exceptions become `Except` /
explicit outcome types.
-/

namespace QueryGen

/-- Embedding of Python's `sep.join(parts)`. -/
def joinWith (sep : String) : List String → String
  | [] => ""
  | [x] => x
  | x :: xs => x ++ sep ++ joinWith sep xs

/-- A table descriptor: the keys of its `"fields"` mapping, in insertion
order.  Field metadata is opaque to the code (only key membership is
tested), so it is dropped from the model. -/
structure TableDesc where
  fields : List String
deriving Repr, DecidableEq

/-- A well-shaped schema document: the `"tables"` mapping, keys in insertion
order.  Claims about `generate_query` quantify over schemas of this shape;
the constructor-level claim (C9) works on raw JSON values instead. -/
structure Schema where
  tables : List (String × TableDesc)
deriving Repr, DecidableEq

/-- Python's `table_name in self.schema["tables"]` / the subsequent
`self.schema["tables"][table_name]` lookup, as one association-list
lookup. -/
def Schema.lookupTable (s : Schema) (t : String) : Option TableDesc :=
  (s.tables.find? (fun p => p.1 == t)).map (fun p => p.2)

/-- The two `ValueError`s `generate_query` can raise, carrying the data
interpolated into their messages. -/
inductive QueryError where
  | unknownTable (table : String)
  | unknownColumn (column : String) (table : String)
deriving Repr, DecidableEq

/-- The in-memory generator object: its only attribute is the loaded
schema. -/
structure SQLQueryGenerator where
  schema : Schema
deriving Repr, DecidableEq

/-- Embedding of `SQLQueryGenerator.generate_query` (src/querygen.py,
lines 19–43).

* `if table_name not in self.schema["tables"]: raise ValueError(...)` —
  the `lookupTable` match;
* the `for column in columns` validation loop raising at the first column
  not in the table's fields — `columns.find?` on the failing predicate;
* `query = f"SELECT {', '.join(columns)} FROM {table_name}"`;
* `if conditions:` — true exactly for a supplied, non-empty mapping
  (`conditions = []` models both `None` and `{}`, which Python treats
  identically here);
* each clause `f"{col} = '{val}'"` joined by `" AND "` and appended after
  `" WHERE "`. -/
def SQLQueryGenerator.generate_query (self : SQLQueryGenerator)
    (table_name : String) (columns : List String)
    (conditions : List (String × String)) : Except QueryError String :=
  match self.schema.lookupTable table_name with
  | none => .error (.unknownTable table_name)
  | some td =>
    match columns.find? (fun column => !(td.fields.contains column)) with
    | some column => .error (.unknownColumn column table_name)
    | none =>
      let query := "SELECT " ++ joinWith ", " columns ++ " FROM " ++ table_name
      if conditions.isEmpty then
        .ok query
      else
        .ok (query ++ " WHERE " ++
          joinWith " AND "
            (conditions.map (fun p => p.1 ++ " = '" ++ p.2 ++ "'")))

/-- A schema with one table `employees` whose fields are those of the
spec's concrete scenario (§8.8). -/
def employeesSchema : Schema :=
  ⟨[("employees", ⟨["first_name", "department_id", "is_active"]⟩)]⟩

/-- The generator loaded with `employeesSchema`. -/
def employeesGen : SQLQueryGenerator := ⟨employeesSchema⟩

/-- Helper: a column list that avoids every field-missing test makes the
validation scan find nothing. -/
theorem find?_invalid_eq_none {td : TableDesc} {columns : List String}
    (h : ∀ c ∈ columns, td.fields.contains c = true) :
    columns.find? (fun column => !(td.fields.contains column)) = none := by
  rw [List.find?_eq_none]
  intro x hx
  rw [h x hx]
  decide

/-- C2: for a table `t` of the schema and columns `cols` that are all fields
of `t`, `generate_query` with no conditions (`conditions = []` models both an
omitted and an empty mapping, which Python's `if conditions:` treats alike)
returns exactly `"SELECT "` ++ the columns joined by `", "` ++ `" FROM "` ++
`t`, with no WHERE clause and no trailing semicolon. -/
theorem generate_query_no_conditions (g : SQLQueryGenerator) (t : String)
    (td : TableDesc) (cols : List String)
    (ht : g.schema.lookupTable t = some td)
    (hc : ∀ c ∈ cols, td.fields.contains c = true) :
    g.generate_query t cols [] =
      .ok ("SELECT " ++ joinWith ", " cols ++ " FROM " ++ t) := by
  simp only [SQLQueryGenerator.generate_query, ht, find?_invalid_eq_none hc]
  rfl

/-- Witness for C2 at the spec's concrete schema. -/
theorem generate_query_no_conditions_witness :
    employeesGen.generate_query "employees" ["first_name", "department_id"] [] =
      .ok "SELECT first_name, department_id FROM employees" := by
  have h := generate_query_no_conditions employeesGen "employees"
    ⟨["first_name", "department_id", "is_active"]⟩ ["first_name", "department_id"]
    (by decide) (by decide)
  exact h.trans (by rfl)

/-- C1: with a non-empty conditions mapping, the result is the no-conditions
result followed by `" WHERE k1 = 'v1' AND ... AND kn = 'vn'"`, clauses in the
mapping's insertion order (the association-list order), each value
interpolated verbatim between single quotes with no escaping. -/
theorem generate_query_with_conditions (g : SQLQueryGenerator) (t : String)
    (td : TableDesc) (cols : List String) (conds : List (String × String))
    (ht : g.schema.lookupTable t = some td)
    (hc : ∀ c ∈ cols, td.fields.contains c = true)
    (hne : conds ≠ []) :
    g.generate_query t cols conds =
      .ok (("SELECT " ++ joinWith ", " cols ++ " FROM " ++ t) ++ " WHERE " ++
        joinWith " AND " (conds.map (fun p => p.1 ++ " = '" ++ p.2 ++ "'"))) ∧
    g.generate_query t cols [] =
      .ok ("SELECT " ++ joinWith ", " cols ++ " FROM " ++ t) := by
  refine ⟨?_, generate_query_no_conditions g t td cols ht hc⟩
  simp only [SQLQueryGenerator.generate_query, ht, find?_invalid_eq_none hc]
  cases conds with
  | nil => exact absurd rfl hne
  | cons p ps => rfl

/-- Witness for C1: the spec's concrete scenario (§8.8). -/
theorem generate_query_with_conditions_witness :
    employeesGen.generate_query "employees" ["first_name", "department_id"]
        [("department_id", "2"), ("is_active", "true")] =
      .ok "SELECT first_name, department_id FROM employees WHERE department_id = '2' AND is_active = 'true'" := by
  have h := (generate_query_with_conditions employeesGen "employees"
    ⟨["first_name", "department_id", "is_active"]⟩ ["first_name", "department_id"]
    [("department_id", "2"), ("is_active", "true")]
    (by decide) (by decide) (by decide)).1
  exact h.trans (by rfl)

/-- C3: a table name that is not a key of the schema's table mapping makes
`generate_query` fail with the Unknown Table error naming that table, for
every columns list and every conditions mapping — in particular the failure
is the same even when columns are invalid too, so the table check comes
before any column validation. -/
theorem generate_query_unknown_table (g : SQLQueryGenerator) (t : String)
    (ht : g.schema.lookupTable t = none)
    (cols : List String) (conds : List (String × String)) :
    g.generate_query t cols conds = .error (.unknownTable t) := by
  simp only [SQLQueryGenerator.generate_query, ht]

/-- Witness for C3: an absent table, with a column that is itself invalid,
still reports Unknown Table. -/
theorem generate_query_unknown_table_witness :
    employeesGen.generate_query "payroll" ["no_such_column"] [("k", "v")] =
      .error (.unknownTable "payroll") :=
  generate_query_unknown_table employeesGen "payroll" (by decide)
    ["no_such_column"] [("k", "v")]

/-- C4: when the columns list is `pre ++ bad :: post` with every column of
`pre` a field of the table and `bad` not one, `generate_query` fails with
Unknown Column naming `bad` — the first offending column in left-to-right
order — and the result does not depend on `post`, so later columns are never
examined. -/
theorem generate_query_unknown_column (g : SQLQueryGenerator) (t : String)
    (td : TableDesc) (pre : List String) (bad : String) (post : List String)
    (conds : List (String × String))
    (ht : g.schema.lookupTable t = some td)
    (hpre : ∀ c ∈ pre, td.fields.contains c = true)
    (hbad : td.fields.contains bad = false) :
    g.generate_query t (pre ++ bad :: post) conds =
      .error (.unknownColumn bad t) := by
  simp only [SQLQueryGenerator.generate_query, ht, List.find?_append,
    find?_invalid_eq_none hpre, Option.none_or]
  rw [List.find?_cons_of_pos _ (by simp only [hbad]; rfl)]

/-- Witness for C4: a second invalid column after the first is not the one
reported. -/
theorem generate_query_unknown_column_witness :
    employeesGen.generate_query "employees"
        ["first_name", "salary", "also_bad"] [] =
      .error (.unknownColumn "salary" "employees") :=
  generate_query_unknown_column employeesGen "employees"
    ⟨["first_name", "department_id", "is_active"]⟩
    ["first_name"] "salary" ["also_bad"] []
    (by decide) (by decide) (by decide)

/-- C5: once table and columns validate, `generate_query` succeeds for every
conditions mapping — condition keys are never checked against the schema. -/
theorem generate_query_conditions_unvalidated (g : SQLQueryGenerator)
    (t : String) (td : TableDesc) (cols : List String)
    (ht : g.schema.lookupTable t = some td)
    (hc : ∀ c ∈ cols, td.fields.contains c = true)
    (conds : List (String × String)) :
    (g.generate_query t cols conds).isOk = true := by
  simp only [SQLQueryGenerator.generate_query, ht, find?_invalid_eq_none hc]
  cases conds with
  | nil => rfl
  | cons p ps => rfl

/-- Witness for C5: a conditions key that is not a field of `employees`
does not fail, and is embedded verbatim in the WHERE clause. -/
theorem generate_query_conditions_unvalidated_witness :
    (employeesGen.generate_query "employees" ["first_name"]
        [("not_a_real_field", "x")]).isOk = true ∧
    employeesGen.generate_query "employees" ["first_name"]
        [("not_a_real_field", "x")] =
      .ok "SELECT first_name FROM employees WHERE not_a_real_field = 'x'" :=
  ⟨generate_query_conditions_unvalidated employeesGen "employees"
      ⟨["first_name", "department_id", "is_active"]⟩ ["first_name"]
      (by decide) (by decide) [("not_a_real_field", "x")],
   by rfl⟩

/-! ### The natural-language path -/

/-- The five Azure OpenAI configuration values read through `os.getenv` at
the start of `generate_query_from_natural_language`; `none` models a value
that is unset (which `os.getenv` reports as `None`), `some s` a value set
to the string `s` — possibly the empty string. -/
structure AzureEnv where
  api_key : Option String
  endpoint : Option String
  deployment_name : Option String
  model : Option String
  api_version : Option String
deriving Repr, DecidableEq

/-- Python truthiness of one `os.getenv` result: `None` and the empty
string are falsy, every other string is truthy. -/
def pyTruthy : Option String → Bool
  | none => false
  | some s => !s.isEmpty

/-- Python's `all([...])` over the five values: every one truthy, i.e. set
and non-empty — a variable exported empty fails this test just like an
unset one. -/
def AzureEnv.allPresent (e : AzureEnv) : Bool :=
  pyTruthy e.api_key && pyTruthy e.endpoint && pyTruthy e.deployment_name &&
    pyTruthy e.model && pyTruthy e.api_version

/-- Serialization of the schema's `"tables"` mapping embedded in the prompt
(`json.dumps(self.schema['tables'], indent=2)` in the source).  Field
metadata is opaque in this model, so each field is rendered as an empty
object and the indentation is not reproduced; this text only feeds the
opaque chat-completion call and no claim depends on it. -/
def dumpTables (s : Schema) : String :=
  "\x7b" ++
    joinWith ", "
      (s.tables.map (fun p =>
        "\"" ++ p.1 ++ "\": \x7b\"fields\": \x7b" ++
          joinWith ", "
            (p.2.fields.map (fun f => "\"" ++ f ++ "\": \x7b\x7d")) ++
          "\x7d\x7d")) ++
  "\x7d"

/-- The f-string prompt assembled by the source from the schema and the
caller's free text. -/
def nlPrompt (s : Schema) (user_input : String) : String :=
  "\n        You are an SQL query generator. Based on the following schema:\n        " ++
    dumpTables s ++
    "\n\n        Generate an SQL query for the following request:\n        \"" ++
    user_input ++ "\"\n        "

/-- One chat-completion request as assembled by the source: deployment id,
the system and user message contents, temperature and max token count. -/
structure ChatRequest where
  deployment_id : String
  system_content : String
  user_content : String
  temperature : Nat
  max_tokens : Nat
deriving Repr, DecidableEq

/-- Outcome of the natural-language path: either an exception propagates to
the caller (only the Missing-Configuration `EnvironmentError` can) or the
method returns a string normally. -/
inductive NLOutcome where
  | raised (message : String)
  | returned (value : String)
deriving Repr, DecidableEq

/-- Embedding of `SQLQueryGenerator.generate_query_from_natural_language`
(src/querygen.py, lines 45–87).  The external chat-completion service is a
parameter: `.ok content` models a successful response's first choice's
message content, `.error e` models the call raising an exception whose
description is `e`.  The second component of the result records whether the
network call was performed.  Mirrored from the body:

* the five `os.getenv` reads and
  `if not all([...]): raise EnvironmentError(...)` with its fixed message,
  which names no individual variable;
* the prompt assembly (`nlPrompt`);
* the single `openai.ChatCompletion.create` call with the deployment id,
  the fixed system message, the prompt, temperature 0 and max_tokens 150;
* on success, `return response['choices'][0]['message']['content'].strip()`;
* `except Exception as e: return f"Error generating query: {e}"`. -/
def generate_query_from_natural_language (self : SQLQueryGenerator)
    (env : AzureEnv) (chatCompletion : ChatRequest → Except String String)
    (user_input : String) : NLOutcome × Bool :=
  if !env.allPresent then
    (.raised "One or more OpenAI environment variables are missing.", false)
  else
    match chatCompletion
      ⟨env.deployment_name.getD "",
       "You are a helpful assistant that generates SQL queries.",
       nlPrompt self.schema user_input, 0, 150⟩ with
    | .ok content => (.returned content.trim, true)
    | .error e => (.returned ("Error generating query: " ++ e), true)

/-- C6: with any of the five configuration values absent (unset, or set to
the empty string — `all` tests truthiness, so both fail the guard), the
call raises the Missing-Configuration error before any network call: the
network flag is `false` and the result is independent of the external
service and of the input; the raised message is one fixed string, the same
whichever value is missing, so it reports no individual variable. -/
theorem nl_missing_configuration (g : SQLQueryGenerator) (env : AzureEnv)
    (h : env.allPresent = false)
    (chatCompletion : ChatRequest → Except String String)
    (user_input : String) :
    generate_query_from_natural_language g env chatCompletion user_input =
      (.raised "One or more OpenAI environment variables are missing.",
       false) := by
  simp [generate_query_from_natural_language, h]

/-- Witness for C6: API key absent, the other four present. -/
theorem nl_missing_configuration_witness :
    (AzureEnv.mk none (some "https://x.openai.azure.com") (some "dep")
        (some "gpt-4") (some "2024-02-01")).allPresent = false ∧
    generate_query_from_natural_language employeesGen
        (AzureEnv.mk none (some "https://x.openai.azure.com") (some "dep")
          (some "gpt-4") (some "2024-02-01"))
        (fun _ => .ok "SELECT 1") "list employees" =
      (.raised "One or more OpenAI environment variables are missing.",
       false) :=
  ⟨by decide,
   nl_missing_configuration employeesGen _ (by decide) _ _⟩

/-- C7: with all five configuration values present — set and non-empty,
so the truthiness guard passes — and the external call raising any
exception with description `e`, the method does not propagate it: it
returns normally, with exactly the string `"Error generating query: "`
followed by `e`, after the one network call. -/
theorem nl_call_failure_returned (g : SQLQueryGenerator) (env : AzureEnv)
    (h : env.allPresent = true) (e : String)
    (chatCompletion : ChatRequest → Except String String)
    (hfail : ∀ r, chatCompletion r = .error e) (user_input : String) :
    generate_query_from_natural_language g env chatCompletion user_input =
      (.returned ("Error generating query: " ++ e), true) := by
  simp [generate_query_from_natural_language, h, hfail]

/-- Witness for C7: a full configuration and a service that times out. -/
theorem nl_call_failure_returned_witness :
    (AzureEnv.mk (some "key") (some "https://x.openai.azure.com")
        (some "dep") (some "gpt-4") (some "2024-02-01")).allPresent = true ∧
    generate_query_from_natural_language employeesGen
        (AzureEnv.mk (some "key") (some "https://x.openai.azure.com")
          (some "dep") (some "gpt-4") (some "2024-02-01"))
        (fun _ => .error "Request timed out") "list employees" =
      (.returned "Error generating query: Request timed out", true) :=
  ⟨by decide,
   nl_call_failure_returned employeesGen _ (by decide) "Request timed out"
     _ (fun _ => rfl) "list employees"⟩

/-! ### Purity of the structured call -/

/-- The structured call as a state transformer on the generator object: the
method body reads `self.schema` and assigns no attribute, so the post-state
is the receiver unchanged. -/
def generate_query_call (self : SQLQueryGenerator) (table_name : String)
    (columns : List String) (conditions : List (String × String)) :
    Except QueryError String × SQLQueryGenerator :=
  (self.generate_query table_name columns conditions, self)

/-- C10: a structured call never mutates the generator — the post-state is
the pre-state, whether the call returns a query or fails with Unknown Table
or Unknown Column — and the outcome is a function of the schema and the
arguments alone: two generators holding the same schema give the same
outcome for the same arguments. -/
theorem generate_query_pure (g g' : SQLQueryGenerator) (t : String)
    (cols : List String) (conds : List (String × String))
    (h : g.schema = g'.schema) :
    (generate_query_call g t cols conds).2 = g ∧
    (generate_query_call g t cols conds).1 =
      (generate_query_call g' t cols conds).1 := by
  obtain ⟨s⟩ := g
  obtain ⟨s'⟩ := g'
  cases h
  exact ⟨rfl, rfl⟩

/-- Witness for C10 at a call that fails with Unknown Column. -/
theorem generate_query_pure_witness :
    employeesGen.schema = employeesGen.schema ∧
    (generate_query_call employeesGen "employees" ["salary"] []).2 =
      employeesGen ∧
    (generate_query_call employeesGen "employees" ["salary"] []).1 =
      (generate_query_call employeesGen "employees" ["salary"] []).1 :=
  ⟨rfl,
   generate_query_pure employeesGen employeesGen "employees" ["salary"] []
     rfl⟩

/-! ### The constructor and the schema document -/

/-- A parsed JSON value: what `json.load` can hand back, of any shape. -/
inductive JVal where
  | null
  | bool (b : Bool)
  | num (n : Int)
  | str (s : String)
  | arr (elems : List JVal)
  | obj (members : List (String × JVal))

/-- Key lookup in a JSON object (`None`-like for non-objects and absent
keys). -/
def JVal.lookup : JVal → String → Option JVal
  | .obj members, key => (members.find? (fun p => p.1 == key)).map (fun p => p.2)
  | _, _ => none

/-- Outcome of `SQLQueryGenerator.__init__`: either an exception while
opening or parsing the schema document (a Schema Load Error) or a
constructed generator holding the parsed document. -/
inductive LoadOutcome where
  | schemaLoadError
  | constructed (schema : JVal)

/-- Embedding of `SQLQueryGenerator.__init__` (src/querygen.py, lines
11–17).  The external document is modelled by what `open` plus `json.load`
observe of it: `none` — the file is missing or unreadable (`open` raises);
`some none` — the contents are not valid JSON (`json.load` raises);
`some (some j)` — the contents parse as the JSON value `j`.  The body
stores the parsed value as `self.schema` and performs no further check. -/
def initGenerator : Option (Option JVal) → LoadOutcome
  | none => .schemaLoadError
  | some none => .schemaLoadError
  | some (some j) => .constructed j

/-- Modelled from the spec: the "expected nested-mapping shape" of the
schema document — a top-level `"tables"` key whose values each contain a
`"fields"` key (§4.1).  Stated from the spec's words to compare with what
the constructor actually checks. -/
def expectedSchemaShape (j : JVal) : Bool :=
  match j.lookup "tables" with
  | some (.obj tables) => tables.all (fun p => (p.2.lookup "fields").isSome)
  | _ => false

/-- C9 counterexample: a document that parses as JSON but is not of the
expected nested-mapping shape (it has no `"tables"` key) does not fail at
construction — the constructor stores it unchecked — contradicting the
claim that construction fails with a Schema Load Error whenever the
document is not parseable as the expected shape. -/
theorem initGenerator_accepts_wrong_shape :
    expectedSchemaShape (.obj [("foo", .null)]) = false ∧
    initGenerator (some (some (.obj [("foo", .null)]))) =
      .constructed (.obj [("foo", .null)]) :=
  ⟨rfl, rfl⟩

/-- C9 (amended): construction fails with a Schema Load Error exactly when
the document is missing/unreadable or not parseable as JSON; any document
that parses as a JSON value is accepted and stored as the schema as-is —
the expected nested-mapping shape is not validated at construction. -/
theorem initGenerator_load_error_iff (doc : Option (Option JVal)) :
    (initGenerator doc = .schemaLoadError ↔ doc = none ∨ doc = some none) ∧
    ∀ j, initGenerator (some (some j)) = .constructed j := by
  refine ⟨?_, fun j => rfl⟩
  match doc with
  | none => simp [initGenerator]
  | some none => simp [initGenerator]
  | some (some j) => simp [initGenerator]

/-! ### Syntactic well-formedness of the emitted SELECT -/

/-- First character of a plain SQL identifier: a letter or an underscore. -/
def isIdentStart (c : Char) : Bool := c.isAlpha || c == '_'

/-- Later characters of a plain SQL identifier. -/
def isIdentChar (c : Char) : Bool := c.isAlpha || c.isDigit || c == '_'

/-- A plain (unquoted) SQL identifier: non-empty, an identifier-start
character followed by identifier characters. -/
def isIdent (s : String) : Bool :=
  match s.data with
  | [] => false
  | c :: cs => isIdentStart c && cs.all isIdentChar

/-- A string usable between single quotes with no escaping: it contains no
single-quote character. -/
def isPlainValue (s : String) : Bool :=
  s.data.all (fun c => !(c == '\''))

/-- Abstract syntax of the SELECT statements the structured path emits: a
column list, a table, and equality conditions. -/
structure SelectStmt where
  cols : List String
  table : String
  conds : List (String × String)

/-- Grammatical well-formedness of such a statement: at least one column;
columns, table and condition keys are plain identifiers; condition values
are quotable literals. -/
def SelectStmt.wf (q : SelectStmt) : Bool :=
  !q.cols.isEmpty && q.cols.all isIdent && isIdent q.table &&
    q.conds.all (fun p => isIdent p.1 && isPlainValue p.2)

/-- Rendering of such a statement in the emitted surface syntax (the same
template `generate_query` uses, with no semicolon). -/
def SelectStmt.render (q : SelectStmt) : String :=
  let base := "SELECT " ++ joinWith ", " q.cols ++ " FROM " ++ q.table
  if q.conds.isEmpty then base
  else
    base ++ " WHERE " ++
      joinWith " AND " (q.conds.map (fun p => p.1 ++ " = '" ++ p.2 ++ "'"))

/-- A string is a syntactically well-formed SELECT statement (of the shape
this program emits) when it is the rendering of some grammatically
well-formed statement.  Spec-side definition of "syntactically well-formed
SQL SELECT statement". -/
def wellFormedSelect (s : String) : Prop :=
  ∃ q : SelectStmt, q.wf = true ∧ q.render = s

/-- Helper: a joined non-empty list starts with its first element. -/
theorem joinWith_cons_data (sep c : String) (cs : List String) :
    ∃ tail, (joinWith sep (c :: cs)).data = c.data ++ tail := by
  cases cs with
  | nil => exact ⟨[], by simp [joinWith]⟩
  | cons d ds =>
    exact ⟨(sep ++ joinWith sep (d :: ds)).data, by simp [joinWith]⟩

/-- Helper: the rendering of a well-formed statement is `"SELECT "`
followed by an identifier (its first column) and further text. -/
theorem render_data_head (q : SelectStmt) (h : q.wf = true) :
    ∃ c tail, (SelectStmt.render q).data =
      "SELECT ".data ++ (c.data ++ tail) ∧ isIdent c = true := by
  obtain ⟨cols, table, conds⟩ := q
  simp only [SelectStmt.wf, Bool.and_eq_true, Bool.not_eq_true'] at h
  obtain ⟨⟨⟨hne, hids⟩, hti⟩, hcs⟩ := h
  cases cols with
  | nil => simp at hne
  | cons c cs =>
    have hc : isIdent c = true :=
      List.all_eq_true.mp hids c (List.mem_cons_self c cs)
    obtain ⟨t0, ht0⟩ := joinWith_cons_data ", " c cs
    cases conds with
    | nil =>
      have hd : (SelectStmt.render ⟨c :: cs, table, []⟩).data =
          "SELECT ".data ++
            (c.data ++ (t0 ++ (" FROM ".data ++ table.data))) := by
        simp [SelectStmt.render, ht0]
      exact ⟨c, _, hd, hc⟩
    | cons p ps =>
      have hd : (SelectStmt.render ⟨c :: cs, table, p :: ps⟩).data =
          "SELECT ".data ++
            (c.data ++ (t0 ++ (" FROM ".data ++ (table.data ++
              (" WHERE ".data ++
                (joinWith " AND "
                  ((p :: ps).map
                    (fun r => r.1 ++ " = '" ++ r.2 ++ "'"))).data))))) := by
        simp [SelectStmt.render, ht0]
      exact ⟨c, _, hd, hc⟩

/-- Helper: an identifier starts with an identifier-start character. -/
theorem isIdent_data_head (s : String) (h : isIdent s = true) :
    ∃ ch rest, s.data = ch :: rest ∧ isIdentStart ch = true := by
  unfold isIdent at h
  cases hd : s.data with
  | nil => rw [hd] at h; exact absurd h (by decide)
  | cons ch rest =>
    rw [hd] at h
    simp only [Bool.and_eq_true] at h
    exact ⟨ch, rest, rfl, h.1⟩

/-- C8 counterexample: the claim admits the empty column list, but then
`generate_query` emits `"SELECT  FROM employees"`, which is not a
well-formed SELECT: every rendering of a well-formed statement has an
identifier-start character at position 7, where this string has a space. -/
theorem generate_query_empty_columns_malformed :
    employeesGen.generate_query "employees" [] [] =
      .ok "SELECT  FROM employees" ∧
    ¬ wellFormedSelect "SELECT  FROM employees" := by
  refine ⟨by rfl, ?_⟩
  rintro ⟨q, hwf, hrender⟩
  obtain ⟨c, tail, hdata, hc⟩ := render_data_head q hwf
  obtain ⟨ch, rest, hch, hstart⟩ := isIdent_data_head c hc
  rw [hrender] at hdata
  have hsplit : "SELECT  FROM employees".data =
      "SELECT ".data ++ (' ' :: "FROM employees".data) := by decide
  have htl : ' ' :: "FROM employees".data = c.data ++ tail :=
    List.append_cancel_left (hsplit.symm.trans hdata)
  rw [hch, List.cons_append] at htl
  have hsp : ch = ' ' := (List.cons_eq_cons.mp htl.symm).1
  rw [hsp] at hstart
  exact absurd hstart (by decide)

/-- C8 (amended): for a valid table and valid columns, when additionally
the column list is non-empty, the table name and every column name are
plain identifiers, every condition key is a plain identifier and every
condition value is quotable (contains no single quote), the returned string
is a syntactically well-formed SELECT statement, with no semicolon
appended.  (The extra hypotheses are forced: the code interpolates names
and values verbatim, so an empty column list — the counterexample — or a
non-identifier name or quoted value breaks the syntax.) -/
theorem generate_query_wellformed (g : SQLQueryGenerator) (t : String)
    (td : TableDesc) (cols : List String) (conds : List (String × String))
    (ht : g.schema.lookupTable t = some td)
    (hc : ∀ c ∈ cols, td.fields.contains c = true)
    (hne : cols ≠ [])
    (hcid : ∀ c ∈ cols, isIdent c = true)
    (htid : isIdent t = true)
    (hcond : ∀ p ∈ conds, isIdent p.1 = true ∧ isPlainValue p.2 = true) :
    ∃ s, g.generate_query t cols conds = .ok s ∧ wellFormedSelect s := by
  have hwf : SelectStmt.wf ⟨cols, t, conds⟩ = true := by
    simp only [SelectStmt.wf, Bool.and_eq_true, Bool.not_eq_true',
      List.all_eq_true]
    refine ⟨⟨⟨?_, hcid⟩, htid⟩, ?_⟩
    · cases cols with
      | nil => exact absurd rfl hne
      | cons c cs => rfl
    · intro p hp
      exact hcond p hp
  cases hcnil : conds with
  | nil =>
    refine ⟨_, generate_query_no_conditions g t td cols ht hc,
      ⟨⟨cols, t, []⟩, ?_, ?_⟩⟩
    · rw [← hcnil]; exact hwf
    · rfl
  | cons p ps =>
    refine ⟨_, (generate_query_with_conditions g t td cols (p :: ps) ht hc
      (by simp)).1, ⟨⟨cols, t, p :: ps⟩, ?_, ?_⟩⟩
    · rw [← hcnil]; exact hwf
    · rfl

/-- Witness for C8 (amended) at the spec's concrete scenario. -/
theorem generate_query_wellformed_witness :
    ∃ s, employeesGen.generate_query "employees"
        ["first_name", "department_id"]
        [("department_id", "2"), ("is_active", "true")] = .ok s ∧
      wellFormedSelect s :=
  generate_query_wellformed employeesGen "employees"
    ⟨["first_name", "department_id", "is_active"]⟩
    ["first_name", "department_id"]
    [("department_id", "2"), ("is_active", "true")]
    (by decide) (by decide) (by decide) (by decide) (by decide) (by decide)

end QueryGen
